import Mathlib

/-!
Verification of the loudness-based decision logic of the wakewords repository.

Embedded components:
* `AudioLevelDetector` from `wakeword_testing/custom_porcupine.py` — the
  fallback trigger detector (cooldown, RMS threshold, round-robin slots).
* The per-cycle gain-control decision from
  `wakeword_testing/normalize_mic_volume.py` — RMS band comparison and
  clamped volume stepping.

Modelling conventions:
* numpy float32 arithmetic is idealised as exact rational arithmetic (ℚ);
  the square root is kept exact over ℝ (`rmsVal`) and related to the
  computable squared comparison by monotonicity lemmas below.
* Wall-clock timestamps (`time.time()`) are rationals passed explicitly.
* Python object mutation is modelled by returning the updated record.
* A Python exception (the `% 0` ZeroDivisionError reachable in `process`
  when `num_keywords = 0`) is modelled with `Except.error`.
* numpy's NaN (mean of an empty array in `calculate_rms`) is modelled as
  `none`; NaN compares false under both `<` and `>`, which the gain step
  mirrors.
-/

/-- Sum of the squared samples of a frame, in exact rational arithmetic
(the numerator of `np.mean(pcm_array ** 2)`). -/
def sumSq (pcm : List Int) : ℚ :=
  (pcm.map (fun x => (x : ℚ) ^ 2)).sum

/-- Mean of the squared samples: `np.mean(pcm_array ** 2)`. For the empty
frame Lean's rational division yields 0; the source code either guards the
empty frame (`custom_porcupine.py`, length check) or produces NaN
(`normalize_mic_volume.py`, modelled separately by `calculate_rms`), so
`meanSq []` is never relied on to be meaningful. -/
def meanSq (pcm : List Int) : ℚ :=
  sumSq pcm / pcm.length

/-- RMS loudness of a frame, `np.sqrt(np.mean(pcm_array ** 2))`, as an
exact real number. -/
noncomputable def rmsVal (pcm : List Int) : ℝ :=
  Real.sqrt ((meanSq pcm : ℚ) : ℝ)

/-- State of `AudioLevelDetector` (custom_porcupine.py, lines 17-24).
Fields mirror the Python attributes set in `__init__`. -/
structure AudioLevelDetector where
  frame_length : Nat
  sample_rate : Nat
  last_detection_time : ℚ
  cooldown_period : ℚ
  threshold : ℚ
  num_keywords : Nat
  keyword_index : Nat
  deriving DecidableEq

/-- Constructor `AudioLevelDetector.__init__(num_keywords)`. Note: the
source performs no validation of `num_keywords`; any value, including 0,
is stored as-is. -/
def AudioLevelDetector.init (num_keywords : Nat) : AudioLevelDetector :=
  { frame_length := 512
    sample_rate := 16000
    last_detection_time := 0
    cooldown_period := 2
    threshold := 10000
    num_keywords := num_keywords
    keyword_index := 0 }

/-- Method `AudioLevelDetector.process(pcm)` (custom_porcupine.py, lines
30-51). Returns the keyword index, or -1 for no detection, together with
the updated detector state. The source compares `rms > self.threshold`
with `rms = sqrt(meanSq pcm)`; since every constructed detector has
`threshold = 10000 ≥ 0` and `meanSq pcm ≥ 0`, this is equivalent to the
computable squared comparison `threshold ^ 2 < meanSq pcm` used here
(lemma `rmsVal_gt_iff` below establishes the equivalence). The branch
returning `Except.error` models the ZeroDivisionError that
`(self.keyword_index + 1) % self.num_keywords` raises in Python when
`num_keywords = 0`. -/
def AudioLevelDetector.process (d : AudioLevelDetector) (current_time : ℚ)
    (pcm : List Int) : Except String (Int × AudioLevelDetector) :=
  if current_time - d.last_detection_time < d.cooldown_period then
    .ok (-1, d)
  else if 0 < pcm.length then
    if d.threshold ^ 2 < meanSq pcm then
      if d.num_keywords = 0 then
        .error "ZeroDivisionError"
      else
        .ok ((d.keyword_index : Int),
          { d with
              last_detection_time := current_time
              keyword_index := (d.keyword_index + 1) % d.num_keywords })
    else
      .ok (-1, d)
  else
    .ok (-1, d)

/-- Fallback branch of `create(keyword_paths, ...)` (custom_porcupine.py,
lines 119-122): `num_keywords = len(keyword_paths) if keyword_paths else 1`
(Python truthiness maps both `None` and `[]` to 1). The pvporcupine
negotiation above that line is out-of-scope I/O glue per the spec; only
the fallback constructor call is modelled. -/
def createFallback (keyword_paths : Option (List String)) : AudioLevelDetector :=
  AudioLevelDetector.init
    (match keyword_paths with
     | some ps => if ps.length = 0 then 1 else ps.length
     | none => 1)

/-- Sequence of detections produced by feeding a detector a list of
(timestamp, frame) inputs: the non-(-1) results of successive calls to
`process`, threading the updated state. An exception aborts the run. -/
def runTriggers (d : AudioLevelDetector) : List (ℚ × List Int) → List Int
  | [] => []
  | x :: rest =>
    match d.process x.1 x.2 with
    | .error _ => []
    | .ok (r, d') => if r = -1 then runTriggers d' rest else r :: runTriggers d' rest

/-- Expected round-robin sequence: `L` slot indices starting at `i`,
cycling modulo `n`. Used to state the cycling property of `runTriggers`. -/
def cycleFrom (i n L : Nat) : List Int :=
  (List.range L).map (fun j => (((i + j) % n : Nat) : Int))

/-- Configuration constant TARGET_RMS_LOW (normalize_mic_volume.py). -/
def TARGET_RMS_LOW : ℚ := 8000

/-- Configuration constant TARGET_RMS_HIGH (normalize_mic_volume.py). -/
def TARGET_RMS_HIGH : ℚ := 12000

/-- Configuration constant ADJUST_STEP (normalize_mic_volume.py). -/
def ADJUST_STEP : Int := 5

/-- Configuration constant MIN_VOLUME (normalize_mic_volume.py). -/
def MIN_VOLUME : Int := 0

/-- Configuration constant MAX_VOLUME (normalize_mic_volume.py). -/
def MAX_VOLUME : Int := 100

/-- Clamping performed by `set_mic_volume(volume)` (normalize_mic_volume.py,
line 60): `volume = max(MIN_VOLUME, min(volume, MAX_VOLUME))`. The return
value is the volume actually written by the subsequent amixer call. -/
def set_mic_volume (volume : Int) : Int :=
  max MIN_VOLUME (min volume MAX_VOLUME)

/-- Function `calculate_rms(pcm)` (normalize_mic_volume.py, lines 32-36).
There is no empty-frame guard in the source: `np.mean` of an empty array
yields NaN (with a RuntimeWarning, not an exception), and `np.sqrt(NaN)`
is NaN. NaN is modelled as `none`. -/
noncomputable def calculate_rms (pcm : List Int) : Option ℝ :=
  if pcm.length = 0 then none else some (rmsVal pcm)

/-- Outcome of one iteration of the control loop in `main`
(normalize_mic_volume.py, lines 92-107): a clamped volume write, no
action, or the distinct could-not-read-volume path. -/
inductive CycleOutcome where
  | wrote (volume : Int)
  | noChange
  | readFailed
  deriving DecidableEq

/-- One iteration of the gain-control loop body (normalize_mic_volume.py,
lines 92-107): if the volume read failed (`current_vol is None`) report
the failure and do nothing; otherwise compare the frame's RMS against the
target band and issue a clamped step adjustment via `set_mic_volume`.
An `rms` of `none` models NaN (empty frame): both band comparisons are
false for NaN, so no adjustment branch is taken. -/
def gainStep (rms : Option ℚ) (current_vol : Option Int) : CycleOutcome :=
  match current_vol with
  | none => .readFailed
  | some v =>
    match rms with
    | none => .noChange
    | some r =>
      if r < TARGET_RMS_LOW then .wrote (set_mic_volume (v + ADJUST_STEP))
      else if TARGET_RMS_HIGH < r then .wrote (set_mic_volume (v - ADJUST_STEP))
      else .noChange

/-- Successive independent iterations of the gain-control loop: the loop
body keeps no state of its own between cycles. -/
def runCycles (inputs : List (Option ℚ × Option Int)) : List CycleOutcome :=
  inputs.map (fun p => gainStep p.1 p.2)

/-- The sum of squared samples is nonnegative. -/
lemma sumSq_nonneg (pcm : List Int) : 0 ≤ sumSq pcm := by
  unfold sumSq
  apply List.sum_nonneg
  intro q hq
  simp only [List.mem_map] at hq
  obtain ⟨x, _, rfl⟩ := hq
  positivity

/-- The mean of squared samples is nonnegative. -/
lemma meanSq_nonneg (pcm : List Int) : 0 ≤ meanSq pcm := by
  unfold meanSq
  apply div_nonneg (sumSq_nonneg pcm)
  positivity

/-- Bridge between the source's RMS comparison and the computable squared
comparison: for a nonnegative bound, the real RMS strictly exceeds the
bound exactly when the mean square strictly exceeds its square. -/
lemma rmsVal_gt_iff (pcm : List Int) (c : ℚ) (hc : 0 ≤ c) :
    (c : ℝ) < rmsVal pcm ↔ c ^ 2 < meanSq pcm := by
  unfold rmsVal
  rw [Real.lt_sqrt (by exact_mod_cast hc)]
  constructor
  · intro h
    exact_mod_cast h
  · intro h
    exact_mod_cast h

/-- Bridge, non-strict direction: the real RMS is at most a nonnegative
bound exactly when the mean square is at most its square. -/
lemma rmsVal_le_iff (pcm : List Int) (c : ℚ) (hc : 0 ≤ c) :
    rmsVal pcm ≤ (c : ℝ) ↔ meanSq pcm ≤ c ^ 2 := by
  unfold rmsVal
  rw [Real.sqrt_le_left (by exact_mod_cast hc)]
  constructor
  · intro h
    exact_mod_cast h
  · intro h
    exact_mod_cast h

example : meanSq [10000] = 100000000 := by
  norm_num [meanSq, sumSq]

example : (AudioLevelDetector.init 1).process 1 [32000] =
    Except.ok (-1, AudioLevelDetector.init 1) := by
  norm_num [AudioLevelDetector.process, AudioLevelDetector.init]

example : (AudioLevelDetector.init 2).process 10 [20000] =
    Except.ok (0, { AudioLevelDetector.init 2 with
      last_detection_time := 10, keyword_index := 1 }) := by
  norm_num [AudioLevelDetector.process, AudioLevelDetector.init, meanSq, sumSq]

example : gainStep (some 5000) (some 100) = CycleOutcome.wrote 100 := by
  norm_num [gainStep, set_mic_volume, TARGET_RMS_LOW, ADJUST_STEP, MIN_VOLUME, MAX_VOLUME]

example : runTriggers (AudioLevelDetector.init 2)
    [(10, [20000]), (20, [25000]), (30, [20000])] = [0, 1, 0] := by
  norm_num [runTriggers, AudioLevelDetector.process, AudioLevelDetector.init, meanSq, sumSq]

/-- Inversion principle for `process`: a non-exceptional call either reports
no detection and leaves the state untouched, or fires with the current slot
index, records the call time, and advances the slot round-robin. -/
lemma process_ok_inv (d : AudioLevelDetector) (now : ℚ) (pcm : List Int)
    (r : Int) (d' : AudioLevelDetector)
    (h : d.process now pcm = Except.ok (r, d')) :
    (r = -1 ∧ d' = d) ∨
      (d.threshold ^ 2 < meanSq pcm ∧ 0 < pcm.length ∧ 0 < d.num_keywords ∧
        r = (d.keyword_index : Int) ∧
        d' = { d with
                 last_detection_time := now
                 keyword_index := (d.keyword_index + 1) % d.num_keywords }) := by
  unfold AudioLevelDetector.process at h
  by_cases h1 : now - d.last_detection_time < d.cooldown_period
  · rw [if_pos h1] at h
    simp only [Except.ok.injEq, Prod.mk.injEq] at h
    exact Or.inl ⟨h.1.symm, h.2.symm⟩
  · rw [if_neg h1] at h
    by_cases h2 : 0 < pcm.length
    · rw [if_pos h2] at h
      by_cases h3 : d.threshold ^ 2 < meanSq pcm
      · rw [if_pos h3] at h
        by_cases h4 : d.num_keywords = 0
        · rw [if_pos h4] at h
          cases h
        · rw [if_neg h4] at h
          simp only [Except.ok.injEq, Prod.mk.injEq] at h
          exact Or.inr ⟨h3, h2, Nat.pos_of_ne_zero h4, h.1.symm, h.2.symm⟩
      · rw [if_neg h3] at h
        simp only [Except.ok.injEq, Prod.mk.injEq] at h
        exact Or.inl ⟨h.1.symm, h.2.symm⟩
    · rw [if_neg h2] at h
      simp only [Except.ok.injEq, Prod.mk.injEq] at h
      exact Or.inl ⟨h.1.symm, h.2.symm⟩

/-- With at least one slot configured, `process` never raises: the only
exceptional path is the modulo-by-zero with zero slots. -/
lemma process_no_error (d : AudioLevelDetector) (now : ℚ) (pcm : List Int)
    (h1 : 0 < d.num_keywords) (e : String) :
    d.process now pcm ≠ Except.error e := by
  unfold AudioLevelDetector.process
  split_ifs with hc hl ht hz
  · simp
  · omega
  · simp
  · simp
  · simp

/-- Unfolding `runTriggers` one step when `process` does not raise. -/
lemma runTriggers_cons_ok (d : AudioLevelDetector) (x : ℚ × List Int)
    (rest : List (ℚ × List Int)) (r : Int) (d' : AudioLevelDetector)
    (hp : d.process x.1 x.2 = Except.ok (r, d')) :
    runTriggers d (x :: rest) =
      if r = -1 then runTriggers d' rest else r :: runTriggers d' rest := by
  have h0 : runTriggers d (x :: rest) =
      match d.process x.1 x.2 with
      | Except.error _ => []
      | Except.ok (r, d') =>
        if r = -1 then runTriggers d' rest else r :: runTriggers d' rest := rfl
  rw [h0, hp]

/-- Length of a round-robin sequence. -/
lemma cycleFrom_length (i n L : Nat) : (cycleFrom i n L).length = L := by
  simp [cycleFrom]

/-- Unfolding a round-robin sequence one step. -/
lemma cycleFrom_succ (i n L : Nat) :
    cycleFrom i n (L + 1) =
      ((i % n : Nat) : Int) :: cycleFrom ((i + 1) % n) n L := by
  unfold cycleFrom
  rw [List.range_succ_eq_map]
  simp only [List.map_cons, List.map_map, Nat.add_zero]
  refine congrArg (_ :: ·) (List.map_congr_left ?_)
  intro j _
  simp only [Function.comp_apply, Nat.succ_eq_add_one, Nat.mod_add_mod]
  congr 2
  omega

/-- The sequence of detections of any run is a round-robin cycle starting
at the detector's current slot. -/
lemma runTriggers_cycleFrom (inputs : List (ℚ × List Int)) :
    ∀ d : AudioLevelDetector, 0 < d.num_keywords →
      d.keyword_index < d.num_keywords →
      runTriggers d inputs =
        cycleFrom d.keyword_index d.num_keywords
          (runTriggers d inputs).length := by
  induction inputs with
  | nil =>
    intro d _ _
    simp [runTriggers, cycleFrom]
  | cons x rest ih =>
    intro d h1 h2
    rcases hp : d.process x.1 x.2 with e | ⟨r, d'⟩
    · exact absurd hp (process_no_error d x.1 x.2 h1 e)
    · rcases process_ok_inv d x.1 x.2 r d' hp with ⟨hr, hd⟩ | ⟨_, _, _, hr, hd⟩
      · rw [runTriggers_cons_ok d x rest r d' hp, hr, hd, if_pos rfl]
        exact ih d h1 h2
      · rw [runTriggers_cons_ok d x rest r d' hp,
          if_neg (by omega : ¬ r = -1), List.length_cons, cycleFrom_succ]
        have hidx : d'.keyword_index = (d.keyword_index + 1) % d.num_keywords := by
          rw [hd]
        have hnum : d'.num_keywords = d.num_keywords := by rw [hd]
        have hlt : d'.keyword_index < d'.num_keywords := by
          rw [hidx, hnum]
          exact Nat.mod_lt _ h1
        have htail := ih d' (by rw [hnum]; exact h1) hlt
        rw [hidx, hnum] at htail
        rw [Nat.mod_eq_of_lt h2, hr, htail, cycleFrom_length]

/-- C1: if the cooldown window is still open at call time, `process`
returns no trigger (-1) with the state unchanged, for every frame, however
loud; the cooldown test is decided before any loudness computation. -/
theorem cooldown_blocks_trigger (d : AudioLevelDetector) (now : ℚ)
    (pcm : List Int) (h : now - d.last_detection_time < d.cooldown_period) :
    d.process now pcm = Except.ok (-1, d) := by
  unfold AudioLevelDetector.process
  rw [if_pos h]

/-- Witness for C1: a fresh detector called again 1 second after its
construction-time epoch, with a very loud frame, still reports -1. -/
theorem cooldown_blocks_trigger_witness :
    (AudioLevelDetector.init 1).process 1 [32000] =
      Except.ok (-1, AudioLevelDetector.init 1) :=
  cooldown_blocks_trigger (AudioLevelDetector.init 1) 1 [32000]
    (by norm_num [AudioLevelDetector.init])

/-- C2: for a detector with at least one slot and its slot index in range,
every non-exceptional `process` call keeps the slot index in
[0, slot_count) and preserves the slot count, and the detections produced
by any run cycle round-robin from the current slot, independent of the
loudness of the triggering frames. -/
theorem slot_index_invariant_and_cycling (d : AudioLevelDetector)
    (h1 : 1 ≤ d.num_keywords) (h2 : d.keyword_index < d.num_keywords) :
    (∀ (now : ℚ) (pcm : List Int) (r : Int) (d' : AudioLevelDetector),
        d.process now pcm = Except.ok (r, d') →
          d'.keyword_index < d'.num_keywords ∧
            d'.num_keywords = d.num_keywords) ∧
    (∀ inputs : List (ℚ × List Int),
        runTriggers d inputs =
          cycleFrom d.keyword_index d.num_keywords
            (runTriggers d inputs).length) := by
  constructor
  · intro now pcm r d' h
    rcases process_ok_inv d now pcm r d' h with ⟨_, hd⟩ | ⟨_, _, _, _, hd⟩
    · subst hd
      exact ⟨h2, rfl⟩
    · subst hd
      exact ⟨Nat.mod_lt _ h1, rfl⟩
  · intro inputs
    exact runTriggers_cycleFrom inputs d h1 h2

/-- Witness for C2: a fresh two-slot detector fed three loud frames of
different magnitudes, each after the cooldown, detects slots 0, 1, 0 —
the round-robin cycle predicted by the theorem. -/
theorem slot_index_invariant_and_cycling_witness :
    runTriggers (AudioLevelDetector.init 2)
        [(10, [20000]), (20, [25000]), (30, [20000])] =
      cycleFrom (AudioLevelDetector.init 2).keyword_index
        (AudioLevelDetector.init 2).num_keywords
        (runTriggers (AudioLevelDetector.init 2)
            [(10, [20000]), (20, [25000]), (30, [20000])]).length ∧
    runTriggers (AudioLevelDetector.init 2)
        [(10, [20000]), (20, [25000]), (30, [20000])] = [0, 1, 0] :=
  ⟨(slot_index_invariant_and_cycling (AudioLevelDetector.init 2)
      (by norm_num [AudioLevelDetector.init])
      (by norm_num [AudioLevelDetector.init])).2 _,
   by norm_num [runTriggers, AudioLevelDetector.process, AudioLevelDetector.init,
     meanSq, sumSq]⟩

/-- C3: a non-exceptional `process` call returns no trigger whenever the
frame's RMS loudness is at most the threshold (in particular when exactly
equal), and any detection implies the RMS loudness strictly exceeded the
threshold. -/
theorem threshold_comparison_strict (d : AudioLevelDetector) (now : ℚ)
    (pcm : List Int) (r : Int) (d' : AudioLevelDetector)
    (hth : 0 ≤ d.threshold)
    (h : d.process now pcm = Except.ok (r, d')) :
    (rmsVal pcm ≤ (d.threshold : ℝ) → r = -1) ∧
    (r ≠ -1 → (d.threshold : ℝ) < rmsVal pcm) := by
  have key : r ≠ -1 → d.threshold ^ 2 < meanSq pcm := by
    intro hr
    rcases process_ok_inv d now pcm r d' h with ⟨h1, _⟩ | ⟨hsq, _⟩
    · exact absurd h1 hr
    · exact hsq
  constructor
  · intro hle
    by_contra hr
    have hgt := key hr
    have hle2 := (rmsVal_le_iff pcm d.threshold hth).1 hle
    linarith
  · intro hr
    exact (rmsVal_gt_iff pcm d.threshold hth).2 (key hr)

/-- Witness for C3: a frame of one sample of value 10000 has RMS exactly
10000, equal to the threshold, and a fresh detector outside its cooldown
does not trigger on it. -/
theorem threshold_comparison_strict_witness : (-1 : Int) = -1 :=
  (threshold_comparison_strict (AudioLevelDetector.init 1) 100 [10000] (-1)
      (AudioLevelDetector.init 1) (by norm_num [AudioLevelDetector.init])
      (by norm_num [AudioLevelDetector.process, AudioLevelDetector.init,
        meanSq, sumSq])).1
    ((rmsVal_le_iff [10000] (AudioLevelDetector.init 1).threshold
        (by norm_num [AudioLevelDetector.init])).2
      (by norm_num [AudioLevelDetector.init, meanSq, sumSq]))

/-- C10: a non-exceptional `process` call that reports no trigger (-1)
leaves the detector state entirely unchanged; `last_detection_time` and
the slot index are only mutated by a call that fires. -/
theorem no_trigger_leaves_state_unchanged (d : AudioLevelDetector)
    (now : ℚ) (pcm : List Int) (d' : AudioLevelDetector)
    (h : d.process now pcm = Except.ok (-1, d')) : d' = d := by
  rcases process_ok_inv d now pcm (-1) d' h with ⟨_, hd⟩ | ⟨_, _, _, hr, _⟩
  · exact hd
  · omega

/-- Witness for C10: a silent frame processed outside the cooldown leaves
a fresh detector in its initial state. -/
theorem no_trigger_leaves_state_unchanged_witness :
    AudioLevelDetector.init 1 = AudioLevelDetector.init 1 :=
  no_trigger_leaves_state_unchanged (AudioLevelDetector.init 1) 100 [0]
    (AudioLevelDetector.init 1)
    (by norm_num [AudioLevelDetector.process, AudioLevelDetector.init,
      meanSq, sumSq])

/-- The clamp in `set_mic_volume` keeps every written volume in bounds. -/
lemma set_mic_volume_bounds (x : Int) :
    MIN_VOLUME ≤ set_mic_volume x ∧ set_mic_volume x ≤ MAX_VOLUME := by
  unfold set_mic_volume
  refine ⟨le_max_left _ _, max_le ?_ (min_le_right _ _)⟩
  norm_num [MIN_VOLUME, MAX_VOLUME]

/-- C4 counterexample: `calculate_rms` applied to the empty frame yields
NaN (modelled `none`, the undefined mean of an empty array), not the
sentinel loudness 0 claimed by the spec. -/
theorem empty_frame_rms_not_zero :
    calculate_rms [] = none ∧ calculate_rms [] ≠ some 0 := by
  constructor
  · simp [calculate_rms]
  · simp [calculate_rms]

/-- C4 amended: an empty frame never raises in either path — the trigger
path guards it with a length check and returns no trigger without
computing loudness, and the gain path's `calculate_rms` yields NaN
(`none`), under which neither band comparison holds, so the gain cycle
emits no volume command. -/
theorem empty_frame_tolerated :
    (∀ (d : AudioLevelDetector) (now : ℚ),
        d.process now [] = Except.ok (-1, d)) ∧
    calculate_rms [] = none ∧
    (∀ v : Int, gainStep none (some v) = CycleOutcome.noChange) := by
  refine ⟨?_, by simp [calculate_rms], fun v => rfl⟩
  intro d now
  simp [AudioLevelDetector.process]

/-- C5 counterexample: with loudness 5000 (below the target band) and
current volume 100 (= MAX_VOLUME), the loop emits a write of 100 — a
volume command whose clamped value equals the current volume, which the
claim says is never emitted. -/
theorem redundant_write_counterexample :
    ¬ ∀ (r : ℚ) (v w : Int),
        gainStep (some r) (some v) = CycleOutcome.wrote w → w ≠ v := by
  intro h
  exact h 5000 100 100
    (by norm_num [gainStep, set_mic_volume, TARGET_RMS_LOW, ADJUST_STEP,
      MIN_VOLUME, MAX_VOLUME])
    rfl

/-- C5 amended: whenever loudness is outside the target band, a volume
command is emitted unconditionally; in particular, even when the clamped
proposal equals the current volume (e.g., already at MAX_VOLUME with
loudness below TARGET_RMS_LOW), the loop issues a redundant write of the
current volume — no equality check suppresses it. -/
theorem redundant_write_emitted (r : ℚ) (v : Int)
    (hlow : r < TARGET_RMS_LOW)
    (heq : set_mic_volume (v + ADJUST_STEP) = v) :
    gainStep (some r) (some v) = CycleOutcome.wrote v := by
  simp only [gainStep]
  rw [if_pos hlow, heq]

/-- Witness for the amended C5: loudness 5000, current volume 100; the
clamped proposal max(0, min(105, 100)) equals 100, and a write of 100 is
emitted anyway. -/
theorem redundant_write_emitted_witness :
    gainStep (some 5000) (some 100) = CycleOutcome.wrote 100 :=
  redundant_write_emitted 5000 100 (by norm_num [TARGET_RMS_LOW])
    (by norm_num [set_mic_volume, ADJUST_STEP, MIN_VOLUME, MAX_VOLUME])

/-- C6 counterexample: a detector constructed with 0 slots is not
rejected — construction succeeds, the invalid slot count is stored
uncoerced, and the detector even processes frames (here, one during
cooldown) without failing. -/
theorem zero_slots_not_rejected :
    (AudioLevelDetector.init 0).num_keywords = 0 ∧
    (AudioLevelDetector.init 0).process 1 [32000] =
      Except.ok (-1, AudioLevelDetector.init 0) := by
  constructor
  · rfl
  · norm_num [AudioLevelDetector.process, AudioLevelDetector.init]

/-- C6 amended: the constructor performs no slot-count validation — 0
slots are accepted and stored as-is, and the invalid configuration only
surfaces as a ZeroDivisionError at the first successful trigger; the
`create` factory, however, always passes a slot count of at least 1
(missing or empty keyword path lists map to 1). -/
theorem zero_slots_deferred_failure :
    (∀ kp : Option (List String), 1 ≤ (createFallback kp).num_keywords) ∧
    (AudioLevelDetector.init 0).num_keywords = 0 ∧
    (AudioLevelDetector.init 0).process 10 [20000] =
      Except.error "ZeroDivisionError" := by
  refine ⟨?_, rfl, ?_⟩
  · intro kp
    rcases kp with _ | ps
    · norm_num [createFallback, AudioLevelDetector.init]
    · by_cases hl : ps.length = 0 <;>
        simp [createFallback, AudioLevelDetector.init, hl] <;> omega
  · norm_num [AudioLevelDetector.process, AudioLevelDetector.init, meanSq, sumSq]

/-- C7: every volume the gain step writes lies within
[MIN_VOLUME, MAX_VOLUME] — the proposal is clamped before the write, for
every loudness (including NaN) and every current-volume reading. -/
theorem written_volume_in_bounds (rms : Option ℚ) (current_vol : Option Int)
    (w : Int) (h : gainStep rms current_vol = CycleOutcome.wrote w) :
    MIN_VOLUME ≤ w ∧ w ≤ MAX_VOLUME := by
  rcases current_vol with _ | v
  · simp [gainStep] at h
  · rcases rms with _ | r
    · simp [gainStep] at h
    · simp only [gainStep] at h
      split_ifs at h with h1 h2
      · simp only [CycleOutcome.wrote.injEq] at h
        exact h ▸ set_mic_volume_bounds _
      · simp only [CycleOutcome.wrote.injEq] at h
        exact h ▸ set_mic_volume_bounds _

/-- Witness for C7: loudness 5000 at current volume 98 writes
max(0, min(103, 100)) = 100, which is within [0, 100]. -/
theorem written_volume_in_bounds_witness :
    MIN_VOLUME ≤ (100 : Int) ∧ (100 : Int) ≤ MAX_VOLUME :=
  written_volume_in_bounds (some 5000) (some 98) 100
    (by norm_num [gainStep, set_mic_volume, TARGET_RMS_LOW, ADJUST_STEP,
      MIN_VOLUME, MAX_VOLUME])

/-- C8: with the current volume readable and in range, loudness inside
the closed band [TARGET_RMS_LOW, TARGET_RMS_HIGH] (endpoints included)
produces no volume command; loudness strictly below the band proposes
current + ADJUST_STEP (clamped), and strictly above proposes
current - ADJUST_STEP (clamped). -/
theorem dead_zone_band (r : ℚ) (v : Int)
    (hv1 : MIN_VOLUME ≤ v) (hv2 : v ≤ MAX_VOLUME) :
    (TARGET_RMS_LOW ≤ r → r ≤ TARGET_RMS_HIGH →
        gainStep (some r) (some v) = CycleOutcome.noChange) ∧
    (r < TARGET_RMS_LOW →
        gainStep (some r) (some v) =
          CycleOutcome.wrote (set_mic_volume (v + ADJUST_STEP))) ∧
    (TARGET_RMS_HIGH < r →
        gainStep (some r) (some v) =
          CycleOutcome.wrote (set_mic_volume (v - ADJUST_STEP))) := by
  refine ⟨fun hlo hhi => ?_, fun hlow => ?_, fun hhigh => ?_⟩
  · simp only [gainStep]
    rw [if_neg (not_lt.2 hlo), if_neg (not_lt.2 hhi)]
  · simp only [gainStep]
    rw [if_pos hlow]
  · have hnl : ¬ r < TARGET_RMS_LOW := by
      rw [not_lt]
      calc TARGET_RMS_LOW ≤ TARGET_RMS_HIGH := by
              norm_num [TARGET_RMS_LOW, TARGET_RMS_HIGH]
        _ ≤ r := hhigh.le
    simp only [gainStep]
    rw [if_neg hnl, if_pos hhigh]

/-- Witness for C8: both band endpoints produce no command at volume 50,
loudness 5000 at volume 40 steps up by 5, and loudness 20000 at volume 45
steps down by 5 — the spec's own end-to-end example. -/
theorem dead_zone_band_witness :
    gainStep (some 8000) (some 50) = CycleOutcome.noChange ∧
    gainStep (some 12000) (some 50) = CycleOutcome.noChange ∧
    gainStep (some 5000) (some 40) =
      CycleOutcome.wrote (set_mic_volume (40 + ADJUST_STEP)) ∧
    gainStep (some 20000) (some 45) =
      CycleOutcome.wrote (set_mic_volume (45 - ADJUST_STEP)) :=
  ⟨(dead_zone_band 8000 50 (by norm_num [MIN_VOLUME]) (by norm_num [MAX_VOLUME])).1
      (by norm_num [TARGET_RMS_LOW]) (by norm_num [TARGET_RMS_HIGH]),
   (dead_zone_band 12000 50 (by norm_num [MIN_VOLUME]) (by norm_num [MAX_VOLUME])).1
      (by norm_num [TARGET_RMS_LOW]) (by norm_num [TARGET_RMS_HIGH]),
   (dead_zone_band 5000 40 (by norm_num [MIN_VOLUME]) (by norm_num [MAX_VOLUME])).2.1
      (by norm_num [TARGET_RMS_LOW]),
   (dead_zone_band 20000 45 (by norm_num [MIN_VOLUME]) (by norm_num [MAX_VOLUME])).2.2
      (by norm_num [TARGET_RMS_HIGH])⟩

/-- C9: when the current volume cannot be read, the cycle reports the
distinct read-failure outcome, emits no volume command (no volume is
guessed), and the next cycle proceeds exactly as it would have — the loop
body carries no state between cycles and performs no retry. -/
theorem read_failure_no_command (rms : Option ℚ)
    (rest : List (Option ℚ × Option Int)) :
    gainStep rms none = CycleOutcome.readFailed ∧
    (∀ w : Int, gainStep rms none ≠ CycleOutcome.wrote w) ∧
    runCycles ((rms, none) :: rest) =
      CycleOutcome.readFailed :: runCycles rest := by
  refine ⟨rfl, fun w h => ?_, rfl⟩
  simp [gainStep] at h
